import Mathlib

/-!
Shallow embedding of the sector-transition orchestrator
(`filecoin-proofs/src/api/update.rs`): the operations `encode_into`,
`decode_from`, `remove_encoded_data` and `generate_update_proof`.

External collaborators (file system, serialization, the commitment codec,
tree hydration, the empty-sector-update proof scheme, piece verification)
are modelled as an environment of oracle functions.  Each operation is a
straight-line computation in a monad `M` that records the calls made to
the environment (the trace) and propagates errors like Rust `?`.
-/

/-- Raw bytes, as read from disk or produced by serialization. -/
abbrev Bytes : Type := List Nat

/-- A raw 32-byte commitment (`Commitment = [u8; 32]`). -/
abbrev Commitment : Type := Bytes

/-- The all-zero 32-byte commitment `[0; 32]`. -/
def zeroComm : Commitment := List.replicate 32 0

/-- A file-system path, as a list of components. -/
abbrev FsPath : Type := List String

/-- `path.join(component)` on paths. -/
def fsPathJoin (p : FsPath) (s : String) : FsPath := p ++ [s]

/-- Modelled from the spec: per cache directory the PersistentAux record is
stored in the file `p_aux` (the string `CacheKey::PAux.to_string()` renders
to, per the auxiliary file layout of the spec). -/
def pAuxFile : String := "p_aux"

/-- Modelled from the spec: per cache directory the TemporaryAux record is
stored in the file `t_aux`. -/
def tAuxFile : String := "t_aux"

/-- Modelled from the spec: `storage_proofs_core::util::NODE_SIZE`, the size
of one node (one 32-byte domain element). -/
def NODE_SIZE : Nat := 32

/-- `PersistentAux` (`storage_proofs_porep::stacked::PersistentAux`): holds
`comm_c` and `comm_r_last`, over an abstract domain type `D`. -/
structure PersistentAux (D : Type) where
  comm_c : D
  comm_r_last : D
deriving DecidableEq

/-- `TemporaryAux` (`storage_proofs_porep::stacked::TemporaryAux`): the tree
store configs plus the base cache directory, configs over an abstract type
`Cfg`. -/
structure TemporaryAux (Cfg : Type) where
  cache_path : FsPath
  tree_d_config : Cfg
  tree_c_config : Cfg
  tree_r_last_config : Cfg
deriving DecidableEq

/-- Modelled from the spec: `TemporaryAux::set_cache_path` (the body lives in
`storage-proofs-porep`, not part of the material here).  Per the spec it is
the pure repoint: the returned copy has the cache-directory field replaced
and all other fields unchanged; it does not touch disk. -/
def TemporaryAux.set_cache_path {Cfg : Type} (t : TemporaryAux Cfg) (dir : FsPath) :
    TemporaryAux Cfg :=
  { t with cache_path := dir }

/-- `PublicParams::from_sector_size`: derived deterministically from the
sector size; opaque to the orchestrator. -/
structure PublicParams where
  sector_size : Nat
deriving DecidableEq

/-- `PublicParams::from_sector_size(u64::from(porep_config.sector_size))`. -/
def PublicParams.from_sector_size (n : Nat) : PublicParams := ⟨n⟩

/-- `storage_proofs_update::PublicInputs`, with the replica-tree domain `D`
and the piece (data-tree) domain `PD` abstract. -/
structure PublicInputs (D PD : Type) where
  k : Nat
  comm_c : D
  comm_r_old : D
  comm_d_new : PD
  comm_r_new : D
  h : Nat
deriving DecidableEq

/-- `storage_proofs_update::PrivateInputs`. -/
structure PrivateInputs (Cfg Cache : Type) where
  t_aux_old : Cache
  tree_d_new_config : Cfg
  tree_r_new_config : Cfg
  replica_path : FsPath
deriving DecidableEq

/-- `PoRepConfig`, restricted to what the orchestrator reads from it:
the sector size, `usize::from(UpdateProofPartitions::from(config))` and
`u64::from(HSelect::from(config))`. -/
structure PoRepConfig where
  sector_size : Nat
  update_partitions : Nat
  h_select : Nat
deriving DecidableEq

/-- Error kinds of the orchestrator, following the spec taxonomy; the
constructors carry the context the source attaches (the implicated path,
or the `ensure!` message). -/
inductive Err : Type where
  | ioError (path : FsPath)
  | deserializeError
  | invalidCommitment
  | integrityError (msg : String)
  | pieceMismatch
  | hydrationError
  | externalError
deriving DecidableEq

/-- One observable call made by the orchestrator to its environment
(file reads, hydration, the external proof-scheme routines and piece
verification), with the arguments handed over. -/
inductive Call (D PD Cfg Cache PI : Type) : Type where
  | fsRead (path : FsPath)
  | hydrate (t : TemporaryAux Cfg) (data_path : FsPath)
  | extEncodeInto (nodes_count : Nat) (cache : Cache) (comm_c comm_sector_key : D)
      (new_replica_path new_cache_path sector_key_path sector_key_cache_path
        staged_data_path : FsPath) (h : Nat)
  | extDecodeFrom (nodes_count : Nat)
      (out_data_path replica_path sector_key_path sector_key_cache_path : FsPath)
      (comm_c : D) (comm_d_new : PD) (comm_sector_key : D) (h : Nat)
  | extRemoveEncodedData (nodes_count : Nat)
      (sector_key_path sector_key_cache_path replica_path replica_cache_path
        data_path : FsPath)
      (comm_c : D) (comm_d_new : PD) (comm_sector_key : D) (h : Nat)
  | verifyPieces (comm_d : Commitment) (piece_infos : List PI) (sector_size : Nat)
  | proveAllPartitions (pp : PublicParams) (inputs : PublicInputs D PD)
      (priv : PrivateInputs Cfg Cache) (partitions : Nat)
deriving DecidableEq

/-- Does this call mutate on-disk state?  Only the three transition routines
of the external proof scheme write files; reads, hydration, verification and
proving do not. -/
def Call.isMutation {D PD Cfg Cache PI : Type} : Call D PD Cfg Cache PI → Bool
  | .extEncodeInto _ _ _ _ _ _ _ _ _ _ => true
  | .extDecodeFrom _ _ _ _ _ _ _ _ _ => true
  | .extRemoveEncodedData _ _ _ _ _ _ _ _ _ _ => true
  | _ => false

/-- A trace performs no on-disk mutation: none of its calls is one of the
three mutating transition routines. -/
def mutationFree {D PD Cfg Cache PI : Type} (tr : List (Call D PD Cfg Cache PI)) : Bool :=
  tr.all (fun c => !c.isMutation)

/-- The environment of external collaborators: the file system and the
oracle functions for (de)serialization, the commitment codec, hydration, the
proof-scheme routines and piece verification.  `Option` marks fallibility. -/
structure Env (D PD Cfg Cache Proof PI : Type) where
  fsRead : FsPath → Option Bytes
  deserializePAux : Bytes → Option (PersistentAux D)
  deserializeTAux : Bytes → Option (TemporaryAux Cfg)
  tryFromBytesD : Bytes → Option D
  tryFromBytesPD : Bytes → Option PD
  intoBytesD : D → Bytes
  intoBytesPD : PD → Bytes
  commitmentIntoPD : Commitment → PD
  hydrate : TemporaryAux Cfg → FsPath → Option Cache
  extEncodeInto : Nat → Cache → D → D → FsPath → FsPath → FsPath → FsPath → FsPath → Nat →
    Option (D × D × PD)
  extDecodeFrom : Nat → FsPath → FsPath → FsPath → FsPath → D → PD → D → Nat → Option Unit
  extRemoveEncodedData : Nat → FsPath → FsPath → FsPath → FsPath → FsPath → D → PD → D → Nat →
    Option Unit
  extProveAllPartitions : PublicParams → PublicInputs D PD → PrivateInputs Cfg Cache →
    Nat → Option (List Proof)
  verifyPieces : Commitment → List PI → Nat → Option Bool

/-- Computation monad of the orchestrator: a trace of calls made, and either
a result or the error that aborted the run. -/
abbrev M (C : Type) (α : Type) : Type := List C × Except Err α

/-- Sequencing in `M`: on error the run stops with the trace so far; on
success the traces concatenate. -/
def M.bind {C α β : Type} (x : M C α) (f : α → M C β) : M C β :=
  match x.2 with
  | Except.error e => (x.1, Except.error e)
  | Except.ok a => (x.1 ++ (f a).1, (f a).2)

/-- A pure value in `M`. -/
def M.mpure {C α : Type} (a : α) : M C α := ([], Except.ok a)

instance {C : Type} : Monad (M C) where
  pure := M.mpure
  bind := M.bind

/-- Record one call in the trace. -/
def M.tell {C : Type} (c : C) : M C Unit := ([c], Except.ok ())

/-- Abort with an error. -/
def M.throwE {C α : Type} (e : Err) : M C α := ([], Except.error e)

/-- Lift a fallible oracle result, aborting with `e` on `none` (the `?`
operator). -/
def M.liftOpt {C α : Type} : Option α → Err → M C α
  | some a, _ => ([], Except.ok a)
  | none, e => ([], Except.error e)

/-- The `p_aux` load block shared by all four operations: read
`cache_dir/p_aux` (with path context on failure) and deserialize it. -/
def load_persistent_aux {D PD Cfg Cache Proof PI : Type}
    (env : Env D PD Cfg Cache Proof PI) (cache_dir : FsPath) :
    M (Call D PD Cfg Cache PI) (PersistentAux D) := do
  let p_aux_path := fsPathJoin cache_dir pAuxFile
  M.tell (Call.fsRead p_aux_path)
  let p_aux_bytes ← M.liftOpt (env.fsRead p_aux_path) (Err.ioError p_aux_path)
  M.liftOpt (env.deserializePAux p_aux_bytes) Err.deserializeError

/-- The `t_aux` load block of `encode_into` (lines 116-125): read
`cache_dir/t_aux`, deserialize, and switch the record to the passed-in cache
path via `set_cache_path`. -/
def encode_load_t_aux {D PD Cfg Cache Proof PI : Type}
    (env : Env D PD Cfg Cache Proof PI) (cache_dir : FsPath) :
    M (Call D PD Cfg Cache PI) (TemporaryAux Cfg) := do
  let t_aux_path := fsPathJoin cache_dir tAuxFile
  M.tell (Call.fsRead t_aux_path)
  let t_aux_bytes ← M.liftOpt (env.fsRead t_aux_path) (Err.ioError t_aux_path)
  let res ← M.liftOpt (env.deserializeTAux t_aux_bytes) Err.deserializeError
  pure (res.set_cache_path cache_dir)

/-- The `t_aux` load block of `generate_update_proof` (lines 288-295): read
`cache_dir/t_aux` and deserialize; unlike the `encode_into` load block, the
deserialized record is returned as-is (no `set_cache_path`). -/
def proof_load_t_aux {D PD Cfg Cache Proof PI : Type}
    (env : Env D PD Cfg Cache Proof PI) (cache_dir : FsPath) :
    M (Call D PD Cfg Cache PI) (TemporaryAux Cfg) := do
  let t_aux_path := fsPathJoin cache_dir tAuxFile
  M.tell (Call.fsRead t_aux_path)
  let t_aux_bytes ← M.liftOpt (env.fsRead t_aux_path) (Err.ioError t_aux_path)
  M.liftOpt (env.deserializeTAux t_aux_bytes) Err.deserializeError

/-- The first half of `encode_into` (lines 106-146): load the aux pair from
`sector_key_cache_path`, hydrate against `sector_key_path`, decode `comm_c`
and `comm_sector_key`, and delegate to the external encode routine, yielding
the three domain values `(comm_r, comm_r_last, comm_d)`. -/
def encode_into_domains {D PD Cfg Cache Proof PI : Type}
    (env : Env D PD Cfg Cache Proof PI) (porep_config : PoRepConfig)
    (new_replica_path new_cache_path sector_key_path sector_key_cache_path
      staged_data_path : FsPath)
    (comm_sector_key : Commitment) :
    M (Call D PD Cfg Cache PI) (D × D × PD) := do
  let p_aux ← load_persistent_aux env sector_key_cache_path
  let t_aux ← encode_load_t_aux env sector_key_cache_path
  M.tell (Call.hydrate t_aux sector_key_path)
  let t_aux_cache ← M.liftOpt (env.hydrate t_aux sector_key_path) Err.hydrationError
  let nodes_count := porep_config.sector_size / NODE_SIZE
  let comm_c ← M.liftOpt (env.tryFromBytesD (env.intoBytesD p_aux.comm_c))
    Err.invalidCommitment
  let comm_sk ← M.liftOpt (env.tryFromBytesD comm_sector_key) Err.invalidCommitment
  M.tell (Call.extEncodeInto nodes_count t_aux_cache comm_c comm_sk
    new_replica_path new_cache_path sector_key_path sector_key_cache_path
    staged_data_path porep_config.h_select)
  M.liftOpt (env.extEncodeInto nodes_count t_aux_cache comm_c comm_sk
    new_replica_path new_cache_path sector_key_path sector_key_cache_path
    staged_data_path porep_config.h_select) Err.externalError

/-- `encode_into` (lines 91-165): run the encode prefix, serialize the three
domain values, reject any all-zero commitment, check the pieces against
`comm_d`, and return `(comm_r, comm_r_last, comm_d)`. -/
def encode_into {D PD Cfg Cache Proof PI : Type}
    (env : Env D PD Cfg Cache Proof PI) (porep_config : PoRepConfig)
    (new_replica_path new_cache_path sector_key_path sector_key_cache_path
      staged_data_path : FsPath)
    (piece_infos : List PI) (comm_sector_key : Commitment) :
    M (Call D PD Cfg Cache PI) (Commitment × Commitment × Commitment) := do
  let (comm_r_domain, comm_r_last_domain, comm_d_domain) ←
    encode_into_domains env porep_config new_replica_path new_cache_path
      sector_key_path sector_key_cache_path staged_data_path comm_sector_key
  let comm_d := env.intoBytesPD comm_d_domain
  let comm_r := env.intoBytesD comm_r_domain
  let comm_r_last := env.intoBytesD comm_r_last_domain
  if comm_d = zeroComm then
    M.throwE (Err.integrityError "Invalid all zero commitment (comm_d)")
  else if comm_r = zeroComm then
    M.throwE (Err.integrityError "Invalid all zero commitment (comm_r)")
  else if comm_r_last = zeroComm then
    M.throwE (Err.integrityError "Invalid all zero commitment (comm_r)")
  else do
    M.tell (Call.verifyPieces comm_d piece_infos porep_config.sector_size)
    let verified ← M.liftOpt (env.verifyPieces comm_d piece_infos
      porep_config.sector_size) Err.externalError
    if verified then pure (comm_r, comm_r_last, comm_d)
    else M.throwE Err.pieceMismatch

/-- `decode_from` (lines 169-205): load PersistentAux from
`sector_key_cache_path`, decode `comm_c` and `comm_sector_key`, convert
`comm_d_new` infallibly (`comm_d_new.into()`), and delegate to the external
decode routine.  `comm_r_new` is accepted but never read. -/
def decode_from {D PD Cfg Cache Proof PI : Type}
    (env : Env D PD Cfg Cache Proof PI) (porep_config : PoRepConfig)
    (out_data_path replica_path sector_key_path sector_key_cache_path : FsPath)
    (comm_d_new comm_r_new comm_sector_key : Commitment) :
    M (Call D PD Cfg Cache PI) Unit := do
  let p_aux ← load_persistent_aux env sector_key_cache_path
  let nodes_count := porep_config.sector_size / NODE_SIZE
  let comm_c ← M.liftOpt (env.tryFromBytesD (env.intoBytesD p_aux.comm_c))
    Err.invalidCommitment
  let comm_d_new_domain := env.commitmentIntoPD comm_d_new
  let comm_sk ← M.liftOpt (env.tryFromBytesD comm_sector_key) Err.invalidCommitment
  M.tell (Call.extDecodeFrom nodes_count out_data_path replica_path
    sector_key_path sector_key_cache_path comm_c comm_d_new_domain comm_sk
    porep_config.h_select)
  let _ ← M.liftOpt (env.extDecodeFrom nodes_count out_data_path replica_path
    sector_key_path sector_key_cache_path comm_c comm_d_new_domain comm_sk
    porep_config.h_select) Err.externalError
  pure ()

/-- `remove_encoded_data` (lines 209-247): load PersistentAux from
`replica_cache_path` (the new replica's cache, not the sector key's), decode
`comm_c` and `comm_sector_key`, convert `comm_d_new` infallibly, and
delegate to the external remove routine.  `comm_r_old` is accepted but never
read. -/
def remove_encoded_data {D PD Cfg Cache Proof PI : Type}
    (env : Env D PD Cfg Cache Proof PI) (porep_config : PoRepConfig)
    (sector_key_path sector_key_cache_path replica_path replica_cache_path
      data_path : FsPath)
    (comm_d_new comm_r_old comm_sector_key : Commitment) :
    M (Call D PD Cfg Cache PI) Unit := do
  let p_aux ← load_persistent_aux env replica_cache_path
  let nodes_count := porep_config.sector_size / NODE_SIZE
  let comm_c ← M.liftOpt (env.tryFromBytesD (env.intoBytesD p_aux.comm_c))
    Err.invalidCommitment
  let comm_d_new_domain := env.commitmentIntoPD comm_d_new
  let comm_sk ← M.liftOpt (env.tryFromBytesD comm_sector_key) Err.invalidCommitment
  M.tell (Call.extRemoveEncodedData nodes_count sector_key_path
    sector_key_cache_path replica_path replica_cache_path data_path comm_c
    comm_d_new_domain comm_sk porep_config.h_select)
  let _ ← M.liftOpt (env.extRemoveEncodedData nodes_count sector_key_path
    sector_key_cache_path replica_path replica_cache_path data_path comm_c
    comm_d_new_domain comm_sk porep_config.h_select) Err.externalError
  pure ()

/-- The PublicInputs assembly prefix of `generate_update_proof` (lines
261-285): decode the three caller-supplied commitments, load the old
PersistentAux from `sector_key_cache_path`, and build the record with `k`
the total configured partition count. -/
def gup_public_inputs {D PD Cfg Cache Proof PI : Type}
    (env : Env D PD Cfg Cache Proof PI) (porep_config : PoRepConfig)
    (comm_r_old comm_r_new comm_d_new : Commitment)
    (sector_key_cache_path : FsPath) :
    M (Call D PD Cfg Cache PI) (PublicInputs D PD) := do
  let comm_r_old_safe ← M.liftOpt (env.tryFromBytesD comm_r_old) Err.invalidCommitment
  let comm_r_new_safe ← M.liftOpt (env.tryFromBytesD comm_r_new) Err.invalidCommitment
  let comm_d_new_safe ← M.liftOpt (env.tryFromBytesPD comm_d_new) Err.invalidCommitment
  let p_aux_old ← load_persistent_aux env sector_key_cache_path
  pure { k := porep_config.update_partitions
         comm_c := p_aux_old.comm_c
         comm_r_old := comm_r_old_safe
         comm_d_new := comm_d_new_safe
         comm_r_new := comm_r_new_safe
         h := porep_config.h_select }

/-- `generate_update_proof` (lines 249-325): assemble PublicInputs, load the
old TemporaryAux (as deserialized), hydrate it against `sector_key_path`,
clone-and-repoint it to `replica_cache_path` for the new tree configs, build
PrivateInputs and delegate to the partitioned prover. -/
def generate_update_proof {D PD Cfg Cache Proof PI : Type}
    (env : Env D PD Cfg Cache Proof PI) (porep_config : PoRepConfig)
    (comm_r_old comm_r_new comm_d_new : Commitment)
    (sector_key_path sector_key_cache_path replica_path replica_cache_path : FsPath) :
    M (Call D PD Cfg Cache PI) (List Proof) := do
  let public_inputs ← gup_public_inputs env porep_config comm_r_old comm_r_new
    comm_d_new sector_key_cache_path
  let public_params := PublicParams.from_sector_size porep_config.sector_size
  let t_aux_old ← proof_load_t_aux env sector_key_cache_path
  M.tell (Call.hydrate t_aux_old sector_key_path)
  let t_aux_cache_old ← M.liftOpt (env.hydrate t_aux_old sector_key_path)
    Err.hydrationError
  let t_aux_new := t_aux_old.set_cache_path replica_cache_path
  let private_inputs : PrivateInputs Cfg Cache :=
    { t_aux_old := t_aux_cache_old
      tree_d_new_config := t_aux_new.tree_d_config
      tree_r_new_config := t_aux_new.tree_r_last_config
      replica_path := replica_path }
  M.tell (Call.proveAllPartitions public_params public_inputs private_inputs
    porep_config.update_partitions)
  M.liftOpt (env.extProveAllPartitions public_params public_inputs private_inputs
    porep_config.update_partitions) Err.externalError

/-- A fully concrete environment (all abstract types instantiated at `Nat`)
in which every oracle succeeds; used to exercise the operations. -/
def goodEnv : Env Nat Nat Nat Nat Nat Nat where
  fsRead := fun _ => some [1]
  deserializePAux := fun _ => some ⟨10, 11⟩
  deserializeTAux := fun _ => some ⟨[], 21, 22, 23⟩
  tryFromBytesD := fun b => some (b.headD 0)
  tryFromBytesPD := fun b => some (b.headD 0)
  intoBytesD := fun d => [d, 1]
  intoBytesPD := fun d => [d, 1]
  commitmentIntoPD := fun c => c.headD 0
  hydrate := fun _ _ => some 7
  extEncodeInto := fun _ _ _ _ _ _ _ _ _ _ => some (3, 4, 5)
  extDecodeFrom := fun _ _ _ _ _ _ _ _ _ => some ()
  extRemoveEncodedData := fun _ _ _ _ _ _ _ _ _ _ => some ()
  extProveAllPartitions := fun _ _ _ k => some (List.range k)
  verifyPieces := fun _ _ _ => some true

/-- A concrete config: sector size 64 (2 nodes), 2 partitions, h-select 1. -/
def cfg0 : PoRepConfig := ⟨64, 2, 1⟩

/-- `goodEnv`, except the serialization of the data-root domain is the
all-zero commitment. -/
def envZeroPD : Env Nat Nat Nat Nat Nat Nat :=
  { goodEnv with intoBytesPD := fun _ => zeroComm }

/-- `goodEnv`, except piece verification reports a mismatch. -/
def envFalsePieces : Env Nat Nat Nat Nat Nat Nat :=
  { goodEnv with verifyPieces := fun _ _ _ => some false }

/-- `goodEnv`, except no byte string is a valid piece-domain (data-root)
element: the validating decode into `PD` always fails. -/
def envNoPD : Env Nat Nat Nat Nat Nat Nat :=
  { goodEnv with tryFromBytesPD := fun _ => none }

/-- `goodEnv`, except no byte string is a valid replica-tree domain element:
the validating decode into `D` always fails. -/
def envNoD : Env Nat Nat Nat Nat Nat Nat :=
  { goodEnv with tryFromBytesD := fun _ => none }

/-- `goodEnv`, except the TemporaryAux stored on disk carries the cache
directory `["elsewhere"]`. -/
def envTAuxElsewhere : Env Nat Nat Nat Nat Nat Nat :=
  { goodEnv with deserializeTAux := fun _ => some ⟨["elsewhere"], 21, 22, 23⟩ }

/-- `goodEnv`, except the file `skc/t_aux` does not exist (every other file
read succeeds). -/
def envNoTAuxFile : Env Nat Nat Nat Nat Nat Nat :=
  { goodEnv with fsRead := fun p => if p = fsPathJoin ["skc"] tAuxFile then none else some [1] }

@[simp] theorem M.bind_eq {C α β : Type} (x : M C α) (f : α → M C β) :
    x >>= f = M.bind x f := rfl

@[simp] theorem M.bind_ok {C α β : Type} (t : List C) (a : α) (f : α → M C β) :
    M.bind ((t, Except.ok a) : M C α) f = (t ++ (f a).1, (f a).2) := rfl

@[simp] theorem M.bind_error {C α β : Type} (t : List C) (e : Err) (f : α → M C β) :
    M.bind ((t, Except.error e) : M C α) f = ((t, Except.error e) : M C β) := rfl

@[simp] theorem M.bind_tell {C α : Type} (c : C) (f : Unit → M C α) :
    M.bind (M.tell c) f = ((c :: (f ()).1, (f ()).2) : M C α) := rfl

@[simp] theorem M.pure_eq {C α : Type} (a : α) : (pure a : M C α) = ([], Except.ok a) := rfl

@[simp] theorem M.throwE_eq {C α : Type} (e : Err) :
    (M.throwE e : M C α) = ([], Except.error e) := rfl

@[simp] theorem M.liftOpt_some {C α : Type} (a : α) (e : Err) :
    (M.liftOpt (some a) e : M C α) = ([], Except.ok a) := rfl

@[simp] theorem M.liftOpt_none {C α : Type} (e : Err) :
    (M.liftOpt (none : Option α) e : M C α) = ([], Except.error e) := rfl

/-- Claim C7: `repoint` (`TemporaryAux::set_cache_path`, modelled from the
spec) is pure: it never mutates the original record (it is a function on
immutable values), touches no disk, and the returned copy's cache-directory
field equals `dir` while all other fields are unchanged from `t_aux`. -/
theorem C7_repoint_pure {Cfg : Type} (t_aux : TemporaryAux Cfg) (dir : FsPath) :
    (t_aux.set_cache_path dir).cache_path = dir ∧
    (t_aux.set_cache_path dir).tree_d_config = t_aux.tree_d_config ∧
    (t_aux.set_cache_path dir).tree_c_config = t_aux.tree_c_config ∧
    (t_aux.set_cache_path dir).tree_r_last_config = t_aux.tree_r_last_config :=
  ⟨rfl, rfl, rfl, rfl⟩

/-- Claim C10: the `comm_r_new` parameter of `decode_from` has no effect on
the operation: for any two values supplied as `comm_r_new`, with all other
arguments and the environment (including the file system) equal, the run
performs exactly the same calls (same reads, same arguments to the external
decode routine) and returns the same result. -/
theorem C10_comm_r_new_unused {D PD Cfg Cache Proof PI : Type}
    (env : Env D PD Cfg Cache Proof PI) (porep_config : PoRepConfig)
    (out_data_path replica_path sector_key_path sector_key_cache_path : FsPath)
    (comm_d_new comm_r_new1 comm_r_new2 comm_sector_key : Commitment) :
    decode_from env porep_config out_data_path replica_path sector_key_path
      sector_key_cache_path comm_d_new comm_r_new1 comm_sector_key =
    decode_from env porep_config out_data_path replica_path sector_key_path
      sector_key_cache_path comm_d_new comm_r_new2 comm_sector_key := rfl

/-- Claim C1: a successful `encode_into` never returns an all-zero
`comm_r`, `comm_r_last` or `comm_d`; and whenever the run reaches the
external encode routine and any of the three returned domain values
serializes to all zeros, `encode_into` fails with an `IntegrityError`
(so no commitment triple is returned). -/
theorem C1_encode_into_rejects_zero_commitments {D PD Cfg Cache Proof PI : Type}
    (env : Env D PD Cfg Cache Proof PI) (porep_config : PoRepConfig)
    (new_replica_path new_cache_path sector_key_path sector_key_cache_path
      staged_data_path : FsPath)
    (piece_infos : List PI) (comm_sector_key : Commitment) :
    (∀ comm_r comm_r_last comm_d,
      (encode_into env porep_config new_replica_path new_cache_path
        sector_key_path sector_key_cache_path staged_data_path piece_infos
        comm_sector_key).2 = Except.ok (comm_r, comm_r_last, comm_d) →
      comm_r ≠ zeroComm ∧ comm_r_last ≠ zeroComm ∧ comm_d ≠ zeroComm) ∧
    (∀ r rl d,
      (encode_into_domains env porep_config new_replica_path new_cache_path
        sector_key_path sector_key_cache_path staged_data_path
        comm_sector_key).2 = Except.ok (r, rl, d) →
      (env.intoBytesPD d = zeroComm ∨ env.intoBytesD r = zeroComm ∨
        env.intoBytesD rl = zeroComm) →
      ∃ msg, (encode_into env porep_config new_replica_path new_cache_path
        sector_key_path sector_key_cache_path staged_data_path piece_infos
        comm_sector_key).2 = Except.error (Err.integrityError msg)) := by
  constructor
  · intro comm_r comm_r_last comm_d h
    unfold encode_into at h
    rcases hd : encode_into_domains env porep_config new_replica_path
        new_cache_path sector_key_path sector_key_cache_path staged_data_path
        comm_sector_key with ⟨tr, res⟩
    rw [hd] at h
    rcases res with e | v
    · simp at h
    · rcases v with ⟨r, rl, d⟩
      by_cases h1 : env.intoBytesPD d = zeroComm
      · simp [h1] at h
      · by_cases h2 : env.intoBytesD r = zeroComm
        · simp [h1, h2] at h
        · by_cases h3 : env.intoBytesD rl = zeroComm
          · simp [h1, h2, h3] at h
          · rcases hv : env.verifyPieces (env.intoBytesPD d) piece_infos
                porep_config.sector_size with _ | b
            · simp [h1, h2, h3, hv] at h
            · cases b
              · simp [h1, h2, h3, hv] at h
              · simp [h1, h2, h3, hv] at h
                obtain ⟨hr, hrl, hd2⟩ := h
                subst hr
                subst hrl
                subst hd2
                exact ⟨h2, h3, h1⟩
  · intro r rl d hdom hzero
    unfold encode_into
    rcases hd : encode_into_domains env porep_config new_replica_path
        new_cache_path sector_key_path sector_key_cache_path staged_data_path
        comm_sector_key with ⟨tr, res⟩
    rw [hd] at hdom
    simp at hdom
    subst hdom
    by_cases h1 : env.intoBytesPD d = zeroComm
    · exact ⟨"Invalid all zero commitment (comm_d)", by simp [h1]⟩
    · by_cases h2 : env.intoBytesD r = zeroComm
      · exact ⟨"Invalid all zero commitment (comm_r)", by simp [h1, h2]⟩
      · by_cases h3 : env.intoBytesD rl = zeroComm
        · exact ⟨"Invalid all zero commitment (comm_r)", by simp [h1, h2, h3]⟩
        · rcases hzero with hz | hz | hz
          · exact absurd hz h1
          · exact absurd hz h2
          · exact absurd hz h3

/-- Witness for C1: under `goodEnv` the run succeeds with the nonzero triple
`([3,1], [4,1], [5,1])`; under `envZeroPD` (where the data root serializes
to all zeros) the run reaches the external encode and fails with an
`IntegrityError`. -/
theorem C1_witness :
    (([3, 1] : Commitment) ≠ zeroComm ∧ ([4, 1] : Commitment) ≠ zeroComm ∧
      ([5, 1] : Commitment) ≠ zeroComm) ∧
    (∃ msg, (encode_into envZeroPD cfg0 ["nr"] ["nc"] ["sk"] ["skc"] ["sd"]
      [0] [9]).2 = Except.error (Err.integrityError msg)) := by
  constructor
  · exact (C1_encode_into_rejects_zero_commitments goodEnv cfg0 ["nr"] ["nc"]
      ["sk"] ["skc"] ["sd"] [0] [9]).1 [3, 1] [4, 1] [5, 1] rfl
  · exact (C1_encode_into_rejects_zero_commitments envZeroPD cfg0 ["nr"] ["nc"]
      ["sk"] ["skc"] ["sd"] [0] [9]).2 3 4 5 rfl (Or.inl rfl)

/-- Claim C2: on success, `encode_into` has established that the returned
`comm_d` is reproducible from `piece_infos` (the external piece verification
returned `true`); and whenever the run reaches the piece check (the external
encode succeeded and no commitment was all-zero) and verification returns
`false`, `encode_into` fails with a `PieceMismatchError` and no commitment
triple is returned. -/
theorem C2_encode_into_verifies_pieces {D PD Cfg Cache Proof PI : Type}
    (env : Env D PD Cfg Cache Proof PI) (porep_config : PoRepConfig)
    (new_replica_path new_cache_path sector_key_path sector_key_cache_path
      staged_data_path : FsPath)
    (piece_infos : List PI) (comm_sector_key : Commitment) :
    (∀ comm_r comm_r_last comm_d,
      (encode_into env porep_config new_replica_path new_cache_path
        sector_key_path sector_key_cache_path staged_data_path piece_infos
        comm_sector_key).2 = Except.ok (comm_r, comm_r_last, comm_d) →
      env.verifyPieces comm_d piece_infos porep_config.sector_size = some true) ∧
    (∀ r rl d,
      (encode_into_domains env porep_config new_replica_path new_cache_path
        sector_key_path sector_key_cache_path staged_data_path
        comm_sector_key).2 = Except.ok (r, rl, d) →
      env.intoBytesPD d ≠ zeroComm → env.intoBytesD r ≠ zeroComm →
      env.intoBytesD rl ≠ zeroComm →
      env.verifyPieces (env.intoBytesPD d) piece_infos
        porep_config.sector_size = some false →
      (encode_into env porep_config new_replica_path new_cache_path
        sector_key_path sector_key_cache_path staged_data_path piece_infos
        comm_sector_key).2 = Except.error Err.pieceMismatch) := by
  constructor
  · intro comm_r comm_r_last comm_d h
    unfold encode_into at h
    rcases hd : encode_into_domains env porep_config new_replica_path
        new_cache_path sector_key_path sector_key_cache_path staged_data_path
        comm_sector_key with ⟨tr, res⟩
    rw [hd] at h
    rcases res with e | v
    · simp at h
    · rcases v with ⟨r, rl, d⟩
      by_cases h1 : env.intoBytesPD d = zeroComm
      · simp [h1] at h
      · by_cases h2 : env.intoBytesD r = zeroComm
        · simp [h1, h2] at h
        · by_cases h3 : env.intoBytesD rl = zeroComm
          · simp [h1, h2, h3] at h
          · rcases hv : env.verifyPieces (env.intoBytesPD d) piece_infos
                porep_config.sector_size with _ | b
            · simp [h1, h2, h3, hv] at h
            · cases b
              · simp [h1, h2, h3, hv] at h
              · simp [h1, h2, h3, hv] at h
                rw [← h.2.2, hv]
  · intro r rl d hdom h1 h2 h3 hv
    unfold encode_into
    rcases hd : encode_into_domains env porep_config new_replica_path
        new_cache_path sector_key_path sector_key_cache_path staged_data_path
        comm_sector_key with ⟨tr, res⟩
    rw [hd] at hdom
    simp at hdom
    subst hdom
    simp [h1, h2, h3, hv]

/-- Witness for C2: under `goodEnv` the successful run implies piece
verification returned `true` on `comm_d = [5,1]`; under `envFalsePieces`
(verification reports a mismatch) the run fails with `PieceMismatchError`. -/
theorem C2_witness :
    goodEnv.verifyPieces [5, 1] [0] cfg0.sector_size = some true ∧
    (encode_into envFalsePieces cfg0 ["nr"] ["nc"] ["sk"] ["skc"] ["sd"]
      [0] [9]).2 = Except.error Err.pieceMismatch := by
  constructor
  · exact (C2_encode_into_verifies_pieces goodEnv cfg0 ["nr"] ["nc"]
      ["sk"] ["skc"] ["sd"] [0] [9]).1 [3, 1] [4, 1] [5, 1] rfl
  · exact (C2_encode_into_verifies_pieces envFalsePieces cfg0 ["nr"] ["nc"]
      ["sk"] ["skc"] ["sd"] [0] [9]).2 3 4 5 rfl (by decide) (by decide)
      (by decide) rfl

theorem M.bind_ok_inv {C α β : Type} {x : M C α} {f : α → M C β} {b : β}
    (h : (M.bind x f).2 = Except.ok b) :
    ∃ a, x.2 = Except.ok a ∧ (f a).2 = Except.ok b := by
  rcases x with ⟨t, res⟩
  rcases res with e | a
  · simp [M.bind] at h
  · exact ⟨a, rfl, by simpa [M.bind] using h⟩

theorem M.liftOpt_ok_inv {C α : Type} {o : Option α} {e : Err} {a : α}
    (h : (M.liftOpt o e : M C α).2 = Except.ok a) : o = some a := by
  rcases o with _ | v
  · simp at h
  · simp at h
    rw [h]

theorem M.head_bind {C α β : Type} (x : M C α) (f : α → M C β) (c : C)
    (h : x.1.head? = some c) : (M.bind x f).1.head? = some c := by
  rcases x with ⟨t, res⟩
  rcases t with _ | ⟨c0, t⟩
  · simp at h
  · rcases res with e | a <;> simp [M.bind] at h ⊢ <;> exact h

/-- Claim C5: the PublicInputs record assembled by `generate_update_proof`
has `k` equal to the total configured partition count, `comm_c` taken from
the PersistentAux loaded (and deserialized) from
`sector_key_cache_path/p_aux`, `comm_r_old`, `comm_d_new`, `comm_r_new`
equal to the validated decodings of the caller-supplied commitments, and `h`
the scheme-selection parameter derived from the config. -/
theorem C5_public_inputs_assembly {D PD Cfg Cache Proof PI : Type}
    (env : Env D PD Cfg Cache Proof PI) (porep_config : PoRepConfig)
    (comm_r_old comm_r_new comm_d_new : Commitment)
    (sector_key_cache_path : FsPath) (ro rn : D) (dn : PD)
    (b : Bytes) (p_aux : PersistentAux D)
    (hro : env.tryFromBytesD comm_r_old = some ro)
    (hrn : env.tryFromBytesD comm_r_new = some rn)
    (hdn : env.tryFromBytesPD comm_d_new = some dn)
    (hp : env.fsRead (fsPathJoin sector_key_cache_path pAuxFile) = some b)
    (hpa : env.deserializePAux b = some p_aux) :
    (gup_public_inputs env porep_config comm_r_old comm_r_new comm_d_new
      sector_key_cache_path).2 =
      Except.ok { k := porep_config.update_partitions
                  comm_c := p_aux.comm_c
                  comm_r_old := ro
                  comm_d_new := dn
                  comm_r_new := rn
                  h := porep_config.h_select } := by
  simp [gup_public_inputs, load_persistent_aux, hro, hrn, hdn, hp, hpa]

/-- Witness for C5 at `goodEnv`: the assembled record is
`{k = 2, comm_c = 10, comm_r_old = 5, comm_d_new = 2, comm_r_new = 6, h = 1}`. -/
theorem C5_witness :
    (gup_public_inputs goodEnv cfg0 [5] [6] [2] ["skc"]).2 =
      Except.ok { k := 2, comm_c := 10, comm_r_old := 5, comm_d_new := 2,
                  comm_r_new := 6, h := 1 } :=
  C5_public_inputs_assembly goodEnv cfg0 [5] [6] [2] ["skc"] 5 6 2 [1] ⟨10, 11⟩
    rfl rfl rfl rfl rfl

/-- Claim C6: if the external partitioned prover honors its contract of one
proof per partition index, then a successful `generate_update_proof` with
configured partition count `P` returns exactly `P` partition proofs, and it
returns them verbatim (in the order produced, ascending partition index) as
the prover output for partition count `P`. -/
theorem C6_partition_proof_count {D PD Cfg Cache Proof PI : Type}
    (env : Env D PD Cfg Cache Proof PI) (porep_config : PoRepConfig)
    (comm_r_old comm_r_new comm_d_new : Commitment)
    (sector_key_path sector_key_cache_path replica_path
      replica_cache_path : FsPath)
    (hcontract : ∀ pp inputs priv k L,
      env.extProveAllPartitions pp inputs priv k = some L → L.length = k)
    (L : List Proof)
    (h : (generate_update_proof env porep_config comm_r_old comm_r_new
      comm_d_new sector_key_path sector_key_cache_path replica_path
      replica_cache_path).2 = Except.ok L) :
    L.length = porep_config.update_partitions ∧
    ∃ pp inputs priv, env.extProveAllPartitions pp inputs priv
      porep_config.update_partitions = some L := by
  unfold generate_update_proof at h
  simp only [M.bind_eq] at h
  obtain ⟨inputs, hinp, h⟩ := M.bind_ok_inv h
  obtain ⟨t_aux_old, hta, h⟩ := M.bind_ok_inv h
  obtain ⟨u, hu, h⟩ := M.bind_ok_inv h
  obtain ⟨cache, hcache, h⟩ := M.bind_ok_inv h
  obtain ⟨u2, hu2, h⟩ := M.bind_ok_inv h
  have hfin := M.liftOpt_ok_inv h
  exact ⟨hcontract _ _ _ _ _ hfin, _, _, _, hfin⟩

/-- Witness for C6 at `goodEnv` (whose prover returns `List.range k`,
honoring the contract): the run with partition count 2 returns the 2 proofs
`[0, 1]`. -/
theorem C6_witness :
    ([0, 1] : List Nat).length = cfg0.update_partitions ∧
    ∃ pp inputs priv, goodEnv.extProveAllPartitions pp inputs priv
      cfg0.update_partitions = some [0, 1] :=
  C6_partition_proof_count goodEnv cfg0 [5] [6] [2] ["sk"] ["skc"] ["rep"]
    ["rc"] (by
      intro pp inputs priv k L hL
      simp [goodEnv] at hL
      rw [← hL]
      exact List.length_range k)
    [0, 1] rfl

/-- Claim C9: against a cache directory whose `p_aux` file exists (and
deserializes) but whose `t_aux` file does not, both `encode_into` and
`generate_update_proof` (once its up-front commitment decodes succeed) fail
with an `IoError` whose context references the `t_aux` path
`cache_dir/t_aux`, not a generic error. -/
theorem C9_missing_t_aux_io_error {D PD Cfg Cache Proof PI : Type}
    (env : Env D PD Cfg Cache Proof PI) (porep_config : PoRepConfig)
    (new_replica_path new_cache_path sector_key_path sector_key_cache_path
      staged_data_path replica_path replica_cache_path : FsPath)
    (piece_infos : List PI)
    (comm_sector_key comm_r_old comm_r_new comm_d_new : Commitment)
    (b : Bytes) (p_aux : PersistentAux D)
    (hp : env.fsRead (fsPathJoin sector_key_cache_path pAuxFile) = some b)
    (hpa : env.deserializePAux b = some p_aux)
    (ht : env.fsRead (fsPathJoin sector_key_cache_path tAuxFile) = none) :
    (encode_into env porep_config new_replica_path new_cache_path
      sector_key_path sector_key_cache_path staged_data_path piece_infos
      comm_sector_key).2 =
      Except.error (Err.ioError (fsPathJoin sector_key_cache_path tAuxFile)) ∧
    (∀ ro rn dn, env.tryFromBytesD comm_r_old = some ro →
      env.tryFromBytesD comm_r_new = some rn →
      env.tryFromBytesPD comm_d_new = some dn →
      (generate_update_proof env porep_config comm_r_old comm_r_new comm_d_new
        sector_key_path sector_key_cache_path replica_path
        replica_cache_path).2 =
        Except.error (Err.ioError (fsPathJoin sector_key_cache_path tAuxFile))) := by
  constructor
  · simp [encode_into, encode_into_domains, load_persistent_aux,
      encode_load_t_aux, hp, hpa, ht]
  · intro ro rn dn hro hrn hdn
    simp [generate_update_proof, gup_public_inputs, load_persistent_aux,
      proof_load_t_aux, hro, hrn, hdn, hp, hpa, ht]

/-- Witness for C9 at `envNoTAuxFile` (only `skc/t_aux` is missing): both
operations fail with the `IoError` carrying the path `["skc", "t_aux"]`. -/
theorem C9_witness :
    (encode_into envNoTAuxFile cfg0 ["nr"] ["nc"] ["sk"] ["skc"] ["sd"]
      [0] [9]).2 =
      Except.error (Err.ioError (fsPathJoin ["skc"] tAuxFile)) ∧
    (generate_update_proof envNoTAuxFile cfg0 [5] [6] [2] ["sk"] ["skc"]
      ["rep"] ["rc"]).2 =
      Except.error (Err.ioError (fsPathJoin ["skc"] tAuxFile)) := by
  have h := C9_missing_t_aux_io_error envNoTAuxFile cfg0 ["nr"] ["nc"] ["sk"]
    ["skc"] ["sd"] ["rep"] ["rc"] [0] [9] [5] [6] [2] [1] ⟨10, 11⟩
    (by decide) (by decide) (by decide)
  exact ⟨h.1, h.2 5 6 2 (by decide) (by decide) (by decide)⟩

/-- Claim C8: `remove_encoded_data` loads PersistentAux from
`replica_cache_path` (its first — and only — `p_aux` read targets the new
replica's cache directory), and the `comm_c` handed to the external
remove-data routine is the decoded `comm_c` field of that record;
`encode_into` and `decode_from`, by contrast, read `p_aux` from
`sector_key_cache_path`. -/
theorem C8_remove_reads_replica_cache {D PD Cfg Cache Proof PI : Type}
    (env : Env D PD Cfg Cache Proof PI) (porep_config : PoRepConfig)
    (sector_key_path sector_key_cache_path replica_path replica_cache_path
      data_path new_replica_path new_cache_path staged_data_path
      out_data_path : FsPath)
    (piece_infos : List PI)
    (comm_d_new comm_r_old comm_r_new comm_sector_key : Commitment)
    (b : Bytes) (p_aux : PersistentAux D) (cc csk : D)
    (hp : env.fsRead (fsPathJoin replica_cache_path pAuxFile) = some b)
    (hpa : env.deserializePAux b = some p_aux)
    (hcc : env.tryFromBytesD (env.intoBytesD p_aux.comm_c) = some cc)
    (hsk : env.tryFromBytesD comm_sector_key = some csk) :
    (remove_encoded_data env porep_config sector_key_path
      sector_key_cache_path replica_path replica_cache_path data_path
      comm_d_new comm_r_old comm_sector_key).1.head? =
      some (Call.fsRead (fsPathJoin replica_cache_path pAuxFile)) ∧
    Call.extRemoveEncodedData (porep_config.sector_size / NODE_SIZE)
      sector_key_path sector_key_cache_path replica_path replica_cache_path
      data_path cc (env.commitmentIntoPD comm_d_new) csk porep_config.h_select
      ∈ (remove_encoded_data env porep_config sector_key_path
        sector_key_cache_path replica_path replica_cache_path data_path
        comm_d_new comm_r_old comm_sector_key).1 ∧
    (encode_into env porep_config new_replica_path new_cache_path
      sector_key_path sector_key_cache_path staged_data_path piece_infos
      comm_sector_key).1.head? =
      some (Call.fsRead (fsPathJoin sector_key_cache_path pAuxFile)) ∧
    (decode_from env porep_config out_data_path replica_path sector_key_path
      sector_key_cache_path comm_d_new comm_r_new comm_sector_key).1.head? =
      some (Call.fsRead (fsPathJoin sector_key_cache_path pAuxFile)) := by
  refine ⟨?_, ?_, ?_, ?_⟩
  · unfold remove_encoded_data
    simp only [M.bind_eq]
    apply M.head_bind
    unfold load_persistent_aux
    simp only [M.bind_eq]
    apply M.head_bind
    rfl
  · rcases hrm : env.extRemoveEncodedData (porep_config.sector_size / NODE_SIZE)
        sector_key_path sector_key_cache_path replica_path replica_cache_path
        data_path cc (env.commitmentIntoPD comm_d_new) csk
        porep_config.h_select with _ | u <;>
      simp [remove_encoded_data, load_persistent_aux, hp, hpa, hcc, hsk, hrm]
  · unfold encode_into
    simp only [M.bind_eq]
    apply M.head_bind
    unfold encode_into_domains
    simp only [M.bind_eq]
    apply M.head_bind
    unfold load_persistent_aux
    simp only [M.bind_eq]
    apply M.head_bind
    rfl
  · unfold decode_from
    simp only [M.bind_eq]
    apply M.head_bind
    unfold load_persistent_aux
    simp only [M.bind_eq]
    apply M.head_bind
    rfl

/-- Witness for C8 at `goodEnv`: the remove run's first read is
`["rc", "p_aux"]`, the external remove call receives `comm_c = 10` decoded
from that record, and the encode/decode runs read `["skc", "p_aux"]`. -/
theorem C8_witness :
    (remove_encoded_data goodEnv cfg0 ["sk"] ["skc"] ["rep"] ["rc"] ["d"]
      [2] [5] [9]).1.head? =
      some (Call.fsRead (fsPathJoin ["rc"] pAuxFile)) ∧
    Call.extRemoveEncodedData (cfg0.sector_size / NODE_SIZE) ["sk"] ["skc"]
      ["rep"] ["rc"] ["d"] 10 (goodEnv.commitmentIntoPD [2]) 9 cfg0.h_select
      ∈ (remove_encoded_data goodEnv cfg0 ["sk"] ["skc"] ["rep"] ["rc"] ["d"]
        [2] [5] [9]).1 ∧
    (encode_into goodEnv cfg0 ["nr"] ["nc"] ["sk"] ["skc"] ["sd"] [0]
      [9]).1.head? = some (Call.fsRead (fsPathJoin ["skc"] pAuxFile)) ∧
    (decode_from goodEnv cfg0 ["out"] ["rep"] ["sk"] ["skc"] [2] [6]
      [9]).1.head? = some (Call.fsRead (fsPathJoin ["skc"] pAuxFile)) :=
  C8_remove_reads_replica_cache goodEnv cfg0 ["sk"] ["skc"] ["rep"] ["rc"]
    ["d"] ["nr"] ["nc"] ["sd"] ["out"] [0] [2] [5] [6] [9] [1] ⟨10, 11⟩ 10 9
    rfl rfl rfl rfl

/-- Counterexample to claim C4: the claim asserts every successful
TemporaryAux load sets the returned record's cache-directory field to the
cache directory loaded from, including inside `generate_update_proof`.  But
the load block of `generate_update_proof` performs no such repoint: with a
stored record carrying cache path `["elsewhere"]`, loading from `["skc"]`
succeeds and returns `["elsewhere"]` unchanged, and `generate_update_proof`
hydrates the record in that state. -/
theorem C4_counterexample :
    (proof_load_t_aux envTAuxElsewhere ["skc"]).2 =
      Except.ok (⟨["elsewhere"], 21, 22, 23⟩ : TemporaryAux Nat) ∧
    Call.hydrate (⟨["elsewhere"], 21, 22, 23⟩ : TemporaryAux Nat) ["sk"] ∈
      (generate_update_proof envTAuxElsewhere cfg0 [5] [6] [2] ["sk"] ["skc"]
        ["rep"] ["rc"]).1 ∧
    (["elsewhere"] : FsPath) ≠ (["skc"] : FsPath) := by
  refine ⟨rfl, ?_, by decide⟩
  simp [generate_update_proof, gup_public_inputs, load_persistent_aux,
    proof_load_t_aux, envTAuxElsewhere, goodEnv]

/-- Claim C4 as amended: at the load site in `encode_into` the returned
TemporaryAux's cache-directory field is set to the cache directory loaded
from; at the load site in `generate_update_proof` the record is returned
exactly as deserialized from `cache_dir/t_aux` — its cache-directory field
is left untouched, not set to `cache_dir`. -/
theorem C4_amended_load_temporary_aux {D PD Cfg Cache Proof PI : Type}
    (env : Env D PD Cfg Cache Proof PI) (cache_dir : FsPath)
    (t : TemporaryAux Cfg) :
    ((encode_load_t_aux env cache_dir).2 = Except.ok t →
      t.cache_path = cache_dir) ∧
    ((proof_load_t_aux env cache_dir).2 = Except.ok t →
      ∃ b, env.fsRead (fsPathJoin cache_dir tAuxFile) = some b ∧
        env.deserializeTAux b = some t) := by
  constructor
  · intro h
    unfold encode_load_t_aux at h
    simp only [M.bind_eq] at h
    obtain ⟨u, hu, h⟩ := M.bind_ok_inv h
    obtain ⟨bytes, hb, h⟩ := M.bind_ok_inv h
    obtain ⟨res, hres, h⟩ := M.bind_ok_inv h
    simp at h
    rw [← h]
    rfl
  · intro h
    unfold proof_load_t_aux at h
    simp only [M.bind_eq] at h
    obtain ⟨u, hu, h⟩ := M.bind_ok_inv h
    obtain ⟨bytes, hb, h⟩ := M.bind_ok_inv h
    exact ⟨bytes, M.liftOpt_ok_inv hb, M.liftOpt_ok_inv h⟩

/-- Witness for the amended C4 at `goodEnv`: the `encode_into`-style load
from `["skc"]` yields cache path `["skc"]`; the `generate_update_proof`
load returns the record exactly as deserialized. -/
theorem C4_witness :
    (⟨["skc"], 21, 22, 23⟩ : TemporaryAux Nat).cache_path = ["skc"] ∧
    ∃ b, goodEnv.fsRead (fsPathJoin ["skc"] tAuxFile) = some b ∧
      goodEnv.deserializeTAux b = some ⟨[], 21, 22, 23⟩ := by
  constructor
  · exact (C4_amended_load_temporary_aux goodEnv ["skc"]
      ⟨["skc"], 21, 22, 23⟩).1 rfl
  · exact (C4_amended_load_temporary_aux goodEnv ["skc"]
      ⟨[], 21, 22, 23⟩).2 rfl

/-- Counterexample to claim C3: the claim asserts that in `decode_from` and
`remove_encoded_data` the caller-supplied `comm_d_new` is passed through the
validating decode before being handed to the external routine.  Under
`envNoPD` the validating decode into the data-root domain rejects every byte
string — yet both operations succeed, handing the external routine the
infallible conversion of `comm_d_new` instead: `comm_d_new` is never
validated. -/
theorem C3_counterexample :
    (decode_from envNoPD cfg0 ["out"] ["rep"] ["sk"] ["skc"] [2] [6] [9]).2 =
      Except.ok () ∧
    (remove_encoded_data envNoPD cfg0 ["sk"] ["skc"] ["rep"] ["rc"] ["d"]
      [2] [5] [9]).2 = Except.ok () ∧
    envNoPD.tryFromBytesPD [2] = none := ⟨rfl, rfl, rfl⟩

/-- Claim C3 as amended: every raw commitment the orchestrator validates
(`comm_sector_key` in the three transitions, and all three caller
commitments in `generate_update_proof`) is decoded before use, and a
decoding failure aborts the whole operation with no mutating external call
(in `generate_update_proof`, before any call at all); however in
`decode_from` and `remove_encoded_data` the caller-supplied `comm_d_new` is
converted infallibly and never validated — those two operations are
insensitive to the validating decoder for the data-root domain. -/
theorem C3_amended_commitment_validation {D PD Cfg Cache Proof PI : Type}
    (env : Env D PD Cfg Cache Proof PI) (porep_config : PoRepConfig)
    (new_replica_path new_cache_path sector_key_path sector_key_cache_path
      staged_data_path out_data_path replica_path replica_cache_path
      data_path : FsPath)
    (piece_infos : List PI)
    (comm_sector_key comm_d_new comm_r_new comm_r_old : Commitment) :
    (env.tryFromBytesD comm_sector_key = none →
      (∃ e, (encode_into env porep_config new_replica_path new_cache_path
        sector_key_path sector_key_cache_path staged_data_path piece_infos
        comm_sector_key).2 = Except.error e) ∧
      mutationFree (encode_into env porep_config new_replica_path
        new_cache_path sector_key_path sector_key_cache_path staged_data_path
        piece_infos comm_sector_key).1 = true) ∧
    (env.tryFromBytesD comm_sector_key = none →
      (∃ e, (decode_from env porep_config out_data_path replica_path
        sector_key_path sector_key_cache_path comm_d_new comm_r_new
        comm_sector_key).2 = Except.error e) ∧
      mutationFree (decode_from env porep_config out_data_path replica_path
        sector_key_path sector_key_cache_path comm_d_new comm_r_new
        comm_sector_key).1 = true) ∧
    (env.tryFromBytesD comm_sector_key = none →
      (∃ e, (remove_encoded_data env porep_config sector_key_path
        sector_key_cache_path replica_path replica_cache_path data_path
        comm_d_new comm_r_old comm_sector_key).2 = Except.error e) ∧
      mutationFree (remove_encoded_data env porep_config sector_key_path
        sector_key_cache_path replica_path replica_cache_path data_path
        comm_d_new comm_r_old comm_sector_key).1 = true) ∧
    ((env.tryFromBytesD comm_r_old = none ∨
        env.tryFromBytesD comm_r_new = none ∨
        env.tryFromBytesPD comm_d_new = none) →
      (generate_update_proof env porep_config comm_r_old comm_r_new
        comm_d_new sector_key_path sector_key_cache_path replica_path
        replica_cache_path).2 = Except.error Err.invalidCommitment ∧
      (generate_update_proof env porep_config comm_r_old comm_r_new
        comm_d_new sector_key_path sector_key_cache_path replica_path
        replica_cache_path).1 = []) ∧
    (∀ f, decode_from { env with tryFromBytesPD := f } porep_config
        out_data_path replica_path sector_key_path sector_key_cache_path
        comm_d_new comm_r_new comm_sector_key =
      decode_from env porep_config out_data_path replica_path
        sector_key_path sector_key_cache_path comm_d_new comm_r_new
        comm_sector_key) ∧
    (∀ f, remove_encoded_data { env with tryFromBytesPD := f } porep_config
        sector_key_path sector_key_cache_path replica_path replica_cache_path
        data_path comm_d_new comm_r_old comm_sector_key =
      remove_encoded_data env porep_config sector_key_path
        sector_key_cache_path replica_path replica_cache_path data_path
        comm_d_new comm_r_old comm_sector_key) := by
  refine ⟨?_, ?_, ?_, ?_, fun f => rfl, fun f => rfl⟩
  · intro hsk
    unfold encode_into encode_into_domains load_persistent_aux
      encode_load_t_aux
    rcases h1 : env.fsRead (fsPathJoin sector_key_cache_path pAuxFile)
        with _ | b
    · simp [h1, mutationFree, Call.isMutation]
    rcases h2 : env.deserializePAux b with _ | pa
    · simp [h1, h2, mutationFree, Call.isMutation]
    rcases h3 : env.fsRead (fsPathJoin sector_key_cache_path tAuxFile)
        with _ | tb
    · simp [h1, h2, h3, mutationFree, Call.isMutation]
    rcases h4 : env.deserializeTAux tb with _ | ta
    · simp [h1, h2, h3, h4, mutationFree, Call.isMutation]
    rcases h5 : env.hydrate (ta.set_cache_path sector_key_cache_path)
        sector_key_path with _ | cache
    · simp [h1, h2, h3, h4, h5, mutationFree, Call.isMutation]
    rcases h6 : env.tryFromBytesD (env.intoBytesD pa.comm_c) with _ | cc
    · simp [h1, h2, h3, h4, h5, h6, mutationFree, Call.isMutation]
    · simp [h1, h2, h3, h4, h5, h6, hsk, mutationFree, Call.isMutation]
  · intro hsk
    unfold decode_from load_persistent_aux
    rcases h1 : env.fsRead (fsPathJoin sector_key_cache_path pAuxFile)
        with _ | b
    · simp [h1, mutationFree, Call.isMutation]
    rcases h2 : env.deserializePAux b with _ | pa
    · simp [h1, h2, mutationFree, Call.isMutation]
    rcases h3 : env.tryFromBytesD (env.intoBytesD pa.comm_c) with _ | cc
    · simp [h1, h2, h3, mutationFree, Call.isMutation]
    · simp [h1, h2, h3, hsk, mutationFree, Call.isMutation]
  · intro hsk
    unfold remove_encoded_data load_persistent_aux
    rcases h1 : env.fsRead (fsPathJoin replica_cache_path pAuxFile)
        with _ | b
    · simp [h1, mutationFree, Call.isMutation]
    rcases h2 : env.deserializePAux b with _ | pa
    · simp [h1, h2, mutationFree, Call.isMutation]
    rcases h3 : env.tryFromBytesD (env.intoBytesD pa.comm_c) with _ | cc
    · simp [h1, h2, h3, mutationFree, Call.isMutation]
    · simp [h1, h2, h3, hsk, mutationFree, Call.isMutation]
  · intro hy
    unfold generate_update_proof gup_public_inputs load_persistent_aux
      proof_load_t_aux
    rcases hy with hy | hy | hy
    · simp [hy]
    · rcases h1 : env.tryFromBytesD comm_r_old with _ | ro
      · simp [h1]
      · simp [h1, hy]
    · rcases h1 : env.tryFromBytesD comm_r_old with _ | ro
      · simp [h1]
      · rcases h2 : env.tryFromBytesD comm_r_new with _ | rn
        · simp [h1, h2]
        · simp [h1, h2, hy]

/-- Witness for the amended C3 at `envNoD` (no byte string decodes into the
replica-tree domain) and the disjunct `comm_r_old` invalid: each operation
aborts with an error, having made no mutating external call. -/
theorem C3_witness :
    ((∃ e, (encode_into envNoD cfg0 ["nr"] ["nc"] ["sk"] ["skc"] ["sd"]
        [0] [9]).2 = Except.error e) ∧
      mutationFree (encode_into envNoD cfg0 ["nr"] ["nc"] ["sk"] ["skc"]
        ["sd"] [0] [9]).1 = true) ∧
    ((∃ e, (decode_from envNoD cfg0 ["out"] ["rep"] ["sk"] ["skc"] [2] [6]
        [9]).2 = Except.error e) ∧
      mutationFree (decode_from envNoD cfg0 ["out"] ["rep"] ["sk"] ["skc"]
        [2] [6] [9]).1 = true) ∧
    ((∃ e, (remove_encoded_data envNoD cfg0 ["sk"] ["skc"] ["rep"] ["rc"]
        ["d"] [2] [5] [9]).2 = Except.error e) ∧
      mutationFree (remove_encoded_data envNoD cfg0 ["sk"] ["skc"] ["rep"]
        ["rc"] ["d"] [2] [5] [9]).1 = true) ∧
    ((generate_update_proof envNoD cfg0 [5] [6] [2] ["sk"] ["skc"] ["rep"]
        ["rc"]).2 = Except.error Err.invalidCommitment ∧
      (generate_update_proof envNoD cfg0 [5] [6] [2] ["sk"] ["skc"] ["rep"]
        ["rc"]).1 = []) := by
  have h := C3_amended_commitment_validation envNoD cfg0 ["nr"] ["nc"] ["sk"]
    ["skc"] ["sd"] ["out"] ["rep"] ["rc"] ["d"] [0] [9] [2] [6] [5]
  exact ⟨h.1 rfl, h.2.1 rfl, h.2.2.1 rfl, h.2.2.2.1 (Or.inl rfl)⟩
